import Mathlib

/-!
Shallow embedding of the NGU-server userscript (src/tampermonkey.js and the
observer variant src/unnamed/part_000).

The click handler collects framework states along a fiber chain, reads the
first state's `optimizer` field, transforms its `savedequip` collection, and
issues a single POST with the JSON payload.  The observer variant also keeps
a global abort controller for the injected button's click listener.
-/

namespace NguServer

/-- A JavaScript value occurring in a slot array after the `concat` chain:
either a number, or `undefined` (contributed by a missing slot collection). -/
inductive JVal where
  | num : Int → JVal
  | undef : JVal
deriving Repr, DecidableEq

/-- The slot filter callback `x => x < 10000`.  For a number the comparison is
exclusive at 10000; for `undefined` the JS comparison `undefined < 10000`
evaluates to `false` (NaN comparison). -/
def keepSlot : JVal → Bool
  | JVal.num v => v < 10000
  | JVal.undef => false

/-- `Array.prototype.concat` applied to a possibly-undefined argument:
an array argument is spread into the result, while `undefined` (a
non-spreadable value) is appended as a single element. -/
def jsConcat (a : List JVal) : Option (List JVal) → List JVal
  | some l => a ++ l
  | none => a ++ [JVal.undef]

/-- An equipment-set record of `savedequip`: an optional `name` and six slot
collections, each possibly absent (`undefined`). -/
structure EquipRecord where
  name : Option String
  accessory : Option (List JVal)
  head : Option (List JVal)
  boots : Option (List JVal)
  armor : Option (List JVal)
  pants : Option (List JVal)
  weapon : Option (List JVal)
deriving Repr, DecidableEq

/-- A JavaScript runtime error surfaced by the handler. -/
inductive JsError where
  | typeError : String → JsError
deriving Repr, DecidableEq

/-- A produced payload entry: the single-key mapping from an equipment-set
name to its filtered identifier list. -/
abbrev Entry := String × List JVal

/-- The `savedequip.map` callback
`(x) => {if (x.name !== undefined){return {[x.name]: x.accessory.concat(x.head)
.concat(x.boots).concat(x.armor).concat(x.pants).concat(x.weapon)
.filter(x => x < 10000)}}}`.
A nameless record returns `undefined` (`Except.ok none`).  A named record
whose `accessory` is absent throws (`undefined.concat`); any other absent
slot is passed to `concat` as `undefined` and appended as one element. -/
def mapRecord (x : EquipRecord) : Except JsError (Option Entry) :=
  match x.name with
  | none => Except.ok none
  | some n =>
    match x.accessory with
    | none => Except.error (JsError.typeError "cannot read concat of undefined")
    | some a =>
      Except.ok (some (n,
        (jsConcat (jsConcat (jsConcat (jsConcat (jsConcat a x.head)
          x.boots) x.armor) x.pants) x.weapon).filter keepSlot))

/-- `savedequip.map(...)`: JS `Array.prototype.map` stops at the first
callback throw, propagating the exception. -/
def mapSavedequip : List EquipRecord → Except JsError (List (Option Entry))
  | [] => Except.ok []
  | x :: xs =>
    match mapRecord x with
    | Except.error e => Except.error e
    | Except.ok y =>
      match mapSavedequip xs with
      | Except.error e => Except.error e
      | Except.ok ys => Except.ok (y :: ys)

/-- The second pass `.filter(x => x !== undefined)`. -/
def dropUndefined (l : List (Option Entry)) : List (Option Entry) :=
  l.filter (fun y => y ≠ none)

/-- The whole transformation: mapping pass, then the filter pass removing the
`undefined` placeholders of nameless records. -/
def transform (l : List EquipRecord) : Except JsError (List (Option Entry)) :=
  match mapSavedequip l with
  | Except.error e => Except.error e
  | Except.ok ys => Except.ok (dropUndefined ys)

/-- JSON rendering of one value (`JSON.stringify` turns `undefined` array
elements into `null`; the filter pass has removed them in practice). -/
def jsonOfJVal : JVal → String
  | JVal.num v => toString v
  | JVal.undef => "null"

/-- JSON rendering of one payload entry. -/
def jsonOfEntry : Option Entry → String
  | none => "null"
  | some (n, vs) =>
      "\x7b\"" ++ n ++ "\":[" ++ String.intercalate "," (vs.map jsonOfJVal) ++ "]\x7d"

/-- `JSON.stringify` of the transformed sequence. -/
def jsonStringify (l : List (Option Entry)) : String :=
  "[" ++ String.intercalate "," (l.map jsonOfEntry) ++ "]"

/-- The optimizer state: `$r`, holding the `savedequip` collection. -/
structure Optimizer where
  savedequip : List EquipRecord
deriving Repr, DecidableEq

/-- One framework state value collected by the traversal; its `optimizer`
field may be absent. -/
structure AppState where
  optimizer : Option Optimizer
deriving Repr, DecidableEq

/-- The fiber chain walked via `.child`.  At each node the read
`base.pendingProps.store.getState()` either yields a state (`some`) or
throws (`none`: the accessor path is missing or the call fails). -/
inductive Fiber where
  | nil : Fiber
  | node : Option AppState → Fiber → Fiber
deriving Repr, DecidableEq

/-- The `while (base)` loop: each node's accessor failure is swallowed by the
per-node `try`/`catch` and the walk continues with `base.child`; successful
reads are pushed onto `appStates` in traversal order. -/
def collectStates : Fiber → List AppState
  | Fiber.nil => []
  | Fiber.node g c =>
    match g with
    | some s => s :: collectStates c
    | none => collectStates c

/-- Outcome of `reactRoot._reactRootContainer._internalRoot.current`:
the lookup either throws (`fail`, caught and logged) or yields the fiber
chain to walk (possibly empty). -/
inductive RootLookup where
  | fail : RootLookup
  | ok : Fiber → RootLookup
deriving Repr, DecidableEq

/-- The message logged when the internal-root lookup throws. -/
def lookupMsg : String :=
  "Could not get internal root information from reactRoot element"

/-- The state-retrieval step: emitted log messages paired with the collected
state list.  A lookup failure logs once and leaves `base` undefined, so the
loop body never runs and the collected list is empty. -/
def retrieve : RootLookup → List String × List AppState
  | RootLookup.fail => ([lookupMsg], [])
  | RootLookup.ok c => ([], collectStates c)

/-- An HTTP request as issued by `fetch`. -/
structure HttpRequest where
  method : String
  url : String
  headers : List (String × String)
  body : String
deriving Repr, DecidableEq

/-- Observable effects of one activation: console logs in order, issued
requests in order, and the uncaught error terminating the handler, if any. -/
structure Effects where
  logs : List String
  requests : List HttpRequest
  uncaughtError : Option JsError
deriving Repr, DecidableEq

/-- The one request the handler builds:
`fetch("http://localhost:3000", {method: "POST", body: x,
headers: {"Content-Type": "application/json"}})`. -/
def mkRequest (body : String) : HttpRequest :=
  { method := "POST", url := "http://localhost:3000",
    headers := [("Content-Type", "application/json")], body := body }

/-- The click handler of both variants.  `netOk` records whether the POST
settles fulfilled or rejected; the `.finally` callback logs "Done" either
way and the response is never inspected.  `appStates[0]` of an empty array
is `undefined`, so reading `.optimizer` throws; likewise an absent
`optimizer` field makes the later `.savedequip` read throw. -/
def clickHandler (root : RootLookup) (netOk : Bool) : Effects :=
  match (retrieve root).2 with
  | [] =>
    { logs := (retrieve root).1, requests := [],
      uncaughtError := some (JsError.typeError "cannot read optimizer of undefined") }
  | s :: _ =>
    match s.optimizer with
    | none =>
      { logs := (retrieve root).1, requests := [],
        uncaughtError := some (JsError.typeError "cannot read savedequip of undefined") }
    | some opt =>
      match transform opt.savedequip with
      | Except.error e =>
        { logs := (retrieve root).1, requests := [], uncaughtError := some e }
      | Except.ok out =>
        { logs := (retrieve root).1 ++ ["Done"],
          requests := [mkRequest (jsonStringify out)],
          uncaughtError := none }

/-! Observer variant (src/unnamed/part_000): button lifecycle state machine. -/

/-- A click listener attached by one `addSyncButton` call, tagged with its
generation and whether its abort signal has fired (a fired signal detaches
the listener, so it can no longer fire). -/
structure Listener where
  genId : Nat
  aborted : Bool
deriving Repr, DecidableEq

/-- The script's mutable state: every listener ever attached, the global
`controller` variable (holding the generation whose signal it controls), and
the next generation id. -/
structure SyncState where
  listeners : List Listener
  controller : Option Nat
  nextGen : Nat
deriving Repr, DecidableEq

/-- `addSyncButton()`: appends a fresh button with a click listener bound to
a brand-new `AbortController`, and overwrites the global `controller`
variable with the new controller — without aborting the previous one. -/
def addSyncButton (s : SyncState) : SyncState :=
  { listeners := s.listeners ++ [{ genId := s.nextGen, aborted := false }],
    controller := some s.nextGen,
    nextGen := s.nextGen + 1 }

/-- `controller.abort()`: fires the current controller's signal, detaching
exactly the listeners registered with that signal; earlier generations keep
their own (unsignalled) controllers. -/
def abortCurrent (s : SyncState) : SyncState :=
  match s.controller with
  | none => s
  | some g =>
    { s with listeners :=
        s.listeners.map (fun l => if l.genId = g then { l with aborted := true } else l) }

/-- One observed mutation record: a class-attribute mutation whose target's
classList does or does not contain "active", or a mutation the callback
ignores (wrong type or attribute name). -/
inductive MutationRecord where
  | classAttr : Bool → MutationRecord
  | other : MutationRecord
deriving Repr, DecidableEq

/-- The MutationObserver callback body for one record: on a class mutation
with "active" present it calls `addSyncButton()`; on one without it, it
aborts the current controller if there is one. -/
def observerStep (s : SyncState) : MutationRecord → SyncState
  | MutationRecord.classAttr true => addSyncButton s
  | MutationRecord.classAttr false => abortCurrent s
  | MutationRecord.other => s

/-- `setupSyncButton()` followed by a sequence of observed mutations: the
button is added once on load, then the observer callback processes each
record in order. -/
def setupSyncButton (events : List MutationRecord) : SyncState :=
  events.foldl observerStep
    (addSyncButton { listeners := [], controller := none, nextGen := 0 })

/-- The listeners still attached and able to fire. -/
def liveListeners (s : SyncState) : List Listener :=
  s.listeners.filter (fun l => !l.aborted)

/-! Concrete inputs used by the claims. -/

/-- The spec example record `{name:"A", weapon:[1,10000], head:[], boots:[],
armor:[], pants:[], accessory:[]}`. -/
def recA : EquipRecord :=
  { name := some "A", accessory := some [], head := some [], boots := some [],
    armor := some [], pants := some [],
    weapon := some [JVal.num 1, JVal.num 10000] }

/-- The spec example record `{weapon:[5]}` with no name. -/
def recNoName : EquipRecord :=
  { name := none, accessory := none, head := none, boots := none,
    armor := none, pants := none, weapon := some [JVal.num 5] }

/-- A named record whose `head` slot is absent and whose other five slots are
present. -/
def recMissingHead : EquipRecord :=
  { name := some "A", accessory := some [JVal.num 1], head := none,
    boots := some [], armor := some [], pants := some [], weapon := some [] }

/-- A named record whose `accessory` slot is absent. -/
def recNoAcc : EquipRecord :=
  { name := some "A", accessory := none, head := some [], boots := some [],
    armor := some [], pants := some [], weapon := some [] }

/-- An optimizer state holding just the example record. -/
def optA : Optimizer := { savedequip := [recA] }

/-- A collected state whose `optimizer` field is present. -/
def stA : AppState := { optimizer := some optA }

/-- A collected state whose `optimizer` field is absent. -/
def stNone : AppState := { optimizer := none }

/-- An optimizer state holding just the record with the absent `head`. -/
def optMissingHead : Optimizer := { savedequip := [recMissingHead] }

/-- A collected state wrapping `optMissingHead`. -/
def stMissingHead : AppState := { optimizer := some optMissingHead }

end NguServer

namespace NguServer

/-! Claim theorems. -/

/-- Claim C1: for every equipment-set record whose `name` is defined (and
whose six slot collections are present), the mapping produced has that name
as its only key and, as value, the concatenation in the order accessory,
head, boots, armor, pants, weapon of the six slot collections filtered to
elements strictly below 10000; and on the spec's concrete input
`[{name:"A", weapon:[1,10000], head:[], boots:[], armor:[], pants:[],
accessory:[]}]` the output is `[{"A":[1]}]`. -/
theorem C1_named_record_mapping (x : EquipRecord) (n : String)
    (a h b ar p w : List JVal)
    (hn : x.name = some n) (ha : x.accessory = some a) (hh : x.head = some h)
    (hb : x.boots = some b) (har : x.armor = some ar) (hp : x.pants = some p)
    (hw : x.weapon = some w) :
    mapRecord x = Except.ok (some (n, (a ++ h ++ b ++ ar ++ p ++ w).filter keepSlot))
    ∧ transform [recA] = Except.ok [some ("A", [JVal.num 1])]
    ∧ jsonStringify [some ("A", [JVal.num 1])] = "[\x7b\"A\":[1]\x7d]" := by
  refine ⟨?_, rfl, rfl⟩
  unfold mapRecord
  rw [hn, ha, hh, hb, har, hp, hw]
  rfl

/-- Witness for C1 at the spec's concrete record. -/
theorem C1_witness :
    mapRecord recA = Except.ok (some ("A",
      (([] : List JVal) ++ [] ++ [] ++ [] ++ [] ++ [JVal.num 1, JVal.num 10000]).filter keepSlot))
    ∧ transform [recA] = Except.ok [some ("A", [JVal.num 1])]
    ∧ jsonStringify [some ("A", [JVal.num 1])] = "[\x7b\"A\":[1]\x7d]" :=
  C1_named_record_mapping recA "A" [] [] [] [] [] [JVal.num 1, JVal.num 10000]
    rfl rfl rfl rfl rfl rfl rfl

/-- Claim C3: a record whose `name` is undefined yields the `undefined`
placeholder in the mapping pass, the filter pass removes every such
placeholder so no entry for the record appears in the output, and on the
concrete input `[{weapon:[5]}]` the output is the empty sequence. -/
theorem C3_nameless_dropped (x : EquipRecord) (l : List EquipRecord)
    (out : List (Option Entry)) (hx : x.name = none)
    (hout : transform l = Except.ok out) :
    mapRecord x = Except.ok none
    ∧ none ∉ out
    ∧ transform [recNoName] = Except.ok [] := by
  refine ⟨?_, ?_, rfl⟩
  · unfold mapRecord
    rw [hx]
  · unfold transform at hout
    cases hm : mapSavedequip l with
    | error e => rw [hm] at hout; cases hout
    | ok ys =>
      rw [hm] at hout
      injection hout with hout'
      subst hout'
      intro hmem
      have := List.of_mem_filter hmem
      simp at this

/-- Witness for C3 at the spec's concrete nameless record. -/
theorem C3_witness :
    mapRecord recNoName = Except.ok none
    ∧ none ∉ ([] : List (Option Entry))
    ∧ transform [recNoName] = Except.ok [] :=
  C3_nameless_dropped recNoName [recNoName] [] rfl rfl

/-- Claim C4: the slot filter is exclusive at 10000 — a numeric value is
retained by the filter exactly when it is strictly below 10000, so 10000 is
excluded, 9999 is included, and every negative value is included. -/
theorem C4_threshold_exclusive :
    (∀ (l : List JVal) (v : Int),
        JVal.num v ∈ l.filter keepSlot ↔ JVal.num v ∈ l ∧ v < 10000)
    ∧ keepSlot (JVal.num 10000) = false
    ∧ keepSlot (JVal.num 9999) = true
    ∧ ∀ v : Int, v < 0 → keepSlot (JVal.num v) = true := by
  refine ⟨?_, rfl, rfl, ?_⟩
  · intro l v
    simp [List.mem_filter, keepSlot]
  · intro v hv
    simp only [keepSlot, decide_eq_true_eq]
    omega

/-- Witness for C4 at the negative value -5. -/
theorem C4_witness :
    JVal.num (-5) ∈ ([JVal.num (-5), JVal.num 10000].filter keepSlot)
    ∧ keepSlot (JVal.num (-5)) = true :=
  ⟨(C4_threshold_exclusive.1 [JVal.num (-5), JVal.num 10000] (-5)).2
      ⟨by decide, by decide⟩,
    C4_threshold_exclusive.2.2.2 (-5) (by decide)⟩

end NguServer

namespace NguServer

/-- Claim C5: when zero framework state nodes are reachable, the collected
state list is empty and the activation terminates with the uncaught
TypeError from reading `optimizer` on the undefined `appStates[0]`, before
the transformation and before any POST — not as a silent no-op. -/
theorem C5_empty_states_fail (root : RootLookup) (b : Bool)
    (h : (retrieve root).2 = []) :
    (clickHandler root b).requests = []
    ∧ (clickHandler root b).uncaughtError =
        some (JsError.typeError "cannot read optimizer of undefined")
    ∧ "Done" ∉ (clickHandler root b).logs := by
  have hlogs : "Done" ∉ (retrieve root).1 := by
    cases root with
    | fail => decide
    | ok c => simp [retrieve]
  unfold clickHandler
  rw [h]
  exact ⟨rfl, rfl, hlogs⟩

/-- Witness for C5: the internal-root lookup fails, so no state is
collected. -/
theorem C5_witness :
    (clickHandler RootLookup.fail true).requests = []
    ∧ (clickHandler RootLookup.fail true).uncaughtError =
        some (JsError.typeError "cannot read optimizer of undefined")
    ∧ "Done" ∉ (clickHandler RootLookup.fail true).logs :=
  C5_empty_states_fail RootLookup.fail true rfl

/-- Claim C6: a per-node accessor failure is swallowed and the walk
continues with the node's child; a failing internal-root lookup emits
exactly one log message and starts the walk from an empty base, collecting
nothing; neither failure escapes the retrieval step. -/
theorem C6_failure_policy (b : Bool) :
    (∀ c : Fiber, collectStates (Fiber.node none c) = collectStates c)
    ∧ retrieve RootLookup.fail = ([lookupMsg], [])
    ∧ (clickHandler RootLookup.fail b).logs = [lookupMsg]
    ∧ (clickHandler RootLookup.fail b).logs.count lookupMsg = 1 :=
  ⟨fun _ => rfl, rfl, rfl, rfl⟩

/-- Claim C7: an activation that reaches the transmission step issues
exactly one request — POST to http://localhost:3000 with the JSON
content-type header and the serialized transformed sequence as body — and
logs the completion message exactly once when the request settles, whether
it succeeded (`b = true`) or failed (`b = false`), with no retry. -/
theorem C7_single_post (root : RootLookup) (b : Bool) (s : AppState)
    (rest : List AppState) (opt : Optimizer) (out : List (Option Entry))
    (hs : (retrieve root).2 = s :: rest)
    (ho : s.optimizer = some opt)
    (ht : transform opt.savedequip = Except.ok out) :
    (clickHandler root b).requests = [mkRequest (jsonStringify out)]
    ∧ (mkRequest (jsonStringify out)).method = "POST"
    ∧ (mkRequest (jsonStringify out)).url = "http://localhost:3000"
    ∧ (mkRequest (jsonStringify out)).headers = [("Content-Type", "application/json")]
    ∧ (clickHandler root b).logs.count "Done" = 1
    ∧ (clickHandler root b).uncaughtError = none := by
  have hr1 : (retrieve root).1 = [] := by
    cases root with
    | fail => simp [retrieve] at hs
    | ok c => rfl
  unfold clickHandler
  simp only [hs, ho, ht, hr1]
  simp [mkRequest]

/-- Witness for C7 at a one-node chain holding the example optimizer
state. -/
theorem C7_witness :
    (clickHandler (RootLookup.ok (Fiber.node (some stA) Fiber.nil)) false).requests
      = [mkRequest (jsonStringify [some ("A", [JVal.num 1])])]
    ∧ (mkRequest (jsonStringify [some ("A", [JVal.num 1])])).method = "POST"
    ∧ (mkRequest (jsonStringify [some ("A", [JVal.num 1])])).url = "http://localhost:3000"
    ∧ (mkRequest (jsonStringify [some ("A", [JVal.num 1])])).headers
      = [("Content-Type", "application/json")]
    ∧ (clickHandler (RootLookup.ok (Fiber.node (some stA) Fiber.nil)) false).logs.count "Done" = 1
    ∧ (clickHandler (RootLookup.ok (Fiber.node (some stA) Fiber.nil)) false).uncaughtError = none :=
  C7_single_post (RootLookup.ok (Fiber.node (some stA) Fiber.nil)) false stA [] optA
    [some ("A", [JVal.num 1])] rfl rfl rfl

/-- Claim C8: the traversal collects states in parent-to-child order, and
the transformation consumes exactly the `optimizer` field of the first
collected state: if that field is absent the activation fails at the next
step (reading `savedequip`) with no POST, never falling back to a later
collected state. -/
theorem C8_first_state_no_fallback (s : AppState) (c : Fiber) (b : Bool)
    (ho : s.optimizer = none) :
    collectStates (Fiber.node (some s) c) = s :: collectStates c
    ∧ (clickHandler (RootLookup.ok (Fiber.node (some s) c)) b).uncaughtError =
        some (JsError.typeError "cannot read savedequip of undefined")
    ∧ (clickHandler (RootLookup.ok (Fiber.node (some s) c)) b).requests = [] := by
  refine ⟨rfl, ?_, ?_⟩ <;>
  · unfold clickHandler
    simp only [retrieve, collectStates, ho]

/-- Witness for C8: the first collected state lacks `optimizer` while the
second has it; the activation still fails. -/
theorem C8_witness :
    collectStates (Fiber.node (some stNone) (Fiber.node (some stA) Fiber.nil))
      = stNone :: collectStates (Fiber.node (some stA) Fiber.nil)
    ∧ (clickHandler (RootLookup.ok (Fiber.node (some stNone)
        (Fiber.node (some stA) Fiber.nil))) true).uncaughtError =
        some (JsError.typeError "cannot read savedequip of undefined")
    ∧ (clickHandler (RootLookup.ok (Fiber.node (some stNone)
        (Fiber.node (some stA) Fiber.nil))) true).requests = [] :=
  C8_first_state_no_fallback stNone (Fiber.node (some stA) Fiber.nil) true rfl

end NguServer

namespace NguServer

/-- Whether an `Except` result is a success (the activation did not throw). -/
def exceptOk {α : Type} : Except JsError α → Bool
  | Except.ok _ => true
  | Except.error _ => false

/-- Helper: the mapping pass distributes over list append when both halves
succeed. -/
theorem mapSavedequip_append :
    ∀ (l₁ : List EquipRecord) (o₁ : List (Option Entry)),
      mapSavedequip l₁ = Except.ok o₁ →
      ∀ (l₂ : List EquipRecord) (o₂ : List (Option Entry)),
        mapSavedequip l₂ = Except.ok o₂ →
        mapSavedequip (l₁ ++ l₂) = Except.ok (o₁ ++ o₂)
  | [], o₁, h₁, l₂, o₂, h₂ => by
      injection h₁ with h₁'
      subst h₁'
      simpa using h₂
  | x :: xs, o₁, h₁, l₂, o₂, h₂ => by
      rw [List.cons_append]
      unfold mapSavedequip at h₁ ⊢
      cases hx : mapRecord x with
      | error e => rw [hx] at h₁; cases h₁
      | ok y =>
        rw [hx] at h₁
        cases hxs : mapSavedequip xs with
        | error e => rw [hxs] at h₁; cases h₁
        | ok ys =>
          rw [hxs] at h₁
          injection h₁ with h₁'
          subst h₁'
          rw [mapSavedequip_append xs ys hxs l₂ o₂ h₂]
          rfl

/-- Claim C9: the pipeline preserves relative order — transforming the
concatenation of two record lists yields the concatenation of their
outputs, so a record preceding another in `savedequip` produces the earlier
entry; and within each entry's value, the slot filter yields a sublist of
the concatenated slot collections, keeping the retained identifiers in
their original relative order. -/
theorem C9_order_preserved (l₁ l₂ : List EquipRecord)
    (o₁ o₂ : List (Option Entry))
    (h₁ : transform l₁ = Except.ok o₁) (h₂ : transform l₂ = Except.ok o₂) :
    transform (l₁ ++ l₂) = Except.ok (o₁ ++ o₂)
    ∧ ∀ v : List JVal, List.Sublist (v.filter keepSlot) v := by
  constructor
  · unfold transform at h₁ h₂ ⊢
    cases hm₁ : mapSavedequip l₁ with
    | error e => rw [hm₁] at h₁; cases h₁
    | ok m₁ =>
      rw [hm₁] at h₁
      injection h₁ with h₁'
      cases hm₂ : mapSavedequip l₂ with
      | error e => rw [hm₂] at h₂; cases h₂
      | ok m₂ =>
        rw [hm₂] at h₂
        injection h₂ with h₂'
        rw [mapSavedequip_append l₁ m₁ hm₁ l₂ m₂ hm₂]
        subst h₁' h₂'
        simp [dropUndefined, List.filter_append]
  · intro v
    exact List.filter_sublist v

/-- Witness for C9 at the two spec example records. -/
theorem C9_witness :
    transform ([recA] ++ [recNoName]) = Except.ok ([some ("A", [JVal.num 1])] ++ [])
    ∧ ∀ v : List JVal, List.Sublist (v.filter keepSlot) v :=
  C9_order_preserved [recA] [recNoName] [some ("A", [JVal.num 1])] [] rfl rfl

/-- Counterexample to claim C10 as stated: a named record with an absent
`head` slot (every other slot present) does not make the transformation
raise an error — `concat` appends the `undefined` slot value as a single
element, which the `< 10000` filter then removes — and the activation still
issues its POST. -/
theorem C10_counterexample :
    transform [recMissingHead] = Except.ok [some ("A", [JVal.num 1])]
    ∧ (clickHandler (RootLookup.ok (Fiber.node (some stMissingHead) Fiber.nil))
        true).uncaughtError = none
    ∧ (clickHandler (RootLookup.ok (Fiber.node (some stMissingHead) Fiber.nil))
        true).requests = [mkRequest (jsonStringify [some ("A", [JVal.num 1])])] :=
  ⟨rfl, rfl, rfl⟩

/-- Helper: the map callback succeeds on any record that is nameless or has
its `accessory` slot present. -/
theorem mapRecord_ok_of_accessory (y : EquipRecord)
    (h : y.name ≠ none → y.accessory ≠ none) :
    exceptOk (mapRecord y) = true := by
  unfold mapRecord
  cases hn : y.name with
  | none => rfl
  | some n =>
    cases ha : y.accessory with
    | none =>
      have hne : y.accessory ≠ none := h (by rw [hn]; simp)
      exact absurd ha hne
    | some a => rfl

/-- Helper: the mapping pass succeeds whenever every named record has its
`accessory` slot present. -/
theorem mapSavedequip_ok_of_accessory (l : List EquipRecord)
    (h : ∀ y ∈ l, y.name ≠ none → y.accessory ≠ none) :
    exceptOk (mapSavedequip l) = true := by
  induction l with
  | nil => rfl
  | cons x xs ih =>
    unfold mapSavedequip
    have hx := mapRecord_ok_of_accessory x (h x (List.mem_cons_self x xs))
    cases hmx : mapRecord x with
    | error e =>
      rw [hmx] at hx
      exact absurd hx (by simp [exceptOk])
    | ok y =>
      have hxs := ih (fun z hz => h z (List.mem_cons_of_mem x hz))
      cases hms : mapSavedequip xs with
      | error e =>
        rw [hms] at hxs
        exact absurd hxs (by simp [exceptOk])
      | ok ys => rfl

/-- Claim C10 amended: the transformation errors on a named record exactly
at an absent `accessory` slot — the first link of the `concat` chain.  A
named record with `accessory` present succeeds whatever its other five
slots, since an absent one is appended as `undefined` and then filtered
out; and the whole transformation (hence the error branch is unreachable)
succeeds whenever every named record has `accessory` present. -/
theorem C10_error_iff_accessory_absent (x : EquipRecord) (n : String)
    (a : List JVal) (l : List EquipRecord) (hn : x.name = some n) :
    (x.accessory = none →
      mapRecord x = Except.error (JsError.typeError "cannot read concat of undefined"))
    ∧ (x.accessory = some a → exceptOk (mapRecord x) = true)
    ∧ ((∀ y ∈ l, y.name ≠ none → y.accessory ≠ none) →
        exceptOk (transform l) = true) := by
  refine ⟨?_, ?_, ?_⟩
  · intro hacc
    unfold mapRecord
    rw [hn, hacc]
  · intro hacc
    unfold mapRecord
    rw [hn, hacc]
    rfl
  · intro h
    unfold transform
    have hok := mapSavedequip_ok_of_accessory l h
    cases hm : mapSavedequip l with
    | error e =>
      rw [hm] at hok
      exact absurd hok (by simp [exceptOk])
    | ok ys => rfl

/-- Witness for the amended C10: the record with no `accessory` errors, the
record with only `head` absent succeeds, and the example list transforms
successfully. -/
theorem C10_amended_witness :
    mapRecord recNoAcc = Except.error (JsError.typeError "cannot read concat of undefined")
    ∧ exceptOk (mapRecord recMissingHead) = true
    ∧ exceptOk (transform [recA]) = true :=
  ⟨(C10_error_iff_accessory_absent recNoAcc "A" [] [recA] rfl).1 rfl,
   (C10_error_iff_accessory_absent recMissingHead "A" [JVal.num 1] [recA] rfl).2.1 rfl,
   (C10_error_iff_accessory_absent recNoAcc "A" [] [recA] rfl).2.2 (by decide)⟩

/-- Claim C2 evaluation at the failing input: after page load, two
consecutive class mutations with the tracked tab's classList containing
"active" leave three generations of click listeners attached with none of
their abort signals fired — in particular the generation attached at the
first gain can still fire after the second gain attaches its own listener,
because `addSyncButton` overwrites the global controller without aborting
the previous one.  A subsequent loss of the active class aborts only the
newest generation, leaving the two stale listeners live. -/
theorem C2_double_active_two_live_listeners :
    liveListeners (setupSyncButton
        [MutationRecord.classAttr true, MutationRecord.classAttr true])
      = [⟨0, false⟩, ⟨1, false⟩, ⟨2, false⟩]
    ∧ liveListeners (setupSyncButton
        [MutationRecord.classAttr true, MutationRecord.classAttr true,
          MutationRecord.classAttr false])
      = [⟨0, false⟩, ⟨1, false⟩] :=
  ⟨rfl, rfl⟩

end NguServer
